import Mathlib

/-!
Formal model of `packages/grafana-ui/src/components/uPlot/config/UPlotScaleBuilder.ts`:
the bounds merge `optMinMax` / `UPlotScaleBuilder.merge`, the scale descriptor
construction `getConfig`, and the auto-range resolver `rangeFn` that `getConfig`
installs.  Machine numbers are modelled as rationals; JavaScript
`number | null | undefined` values are modelled by the `JsNum` type below.
-/

/-- A JavaScript `number | null | undefined` value as it appears in `ScaleProps`
(`min`, `max`, `softMin`, `softMax`, `decimals`).  The code only distinguishes
"nullish" (`null`/`undefined`, via `== null`, `??` and `||`) from present
numbers, but the two nullish values are kept distinct so that this distinction
is itself provable. -/
inductive JsNum where
  | undef : JsNum
  | null : JsNum
  | num : ℚ → JsNum
deriving DecidableEq

/-- JavaScript `x == null` (loose equality): true for both `null` and `undefined`. -/
def JsNum.isNullish : JsNum → Bool
  | .num _ => false
  | _ => true

/-- The numeric content, `none` when nullish (`x ?? fallback` is `(toNum x).getD fallback`). -/
def JsNum.toNum : JsNum → Option ℚ
  | .num q => some q
  | _ => none

/-- Numeric coercion used where the source applies a non-null assertion (`x!`)
or where JavaScript arithmetic/relational operators coerce `null` to `0`. -/
def JsNum.toQ : JsNum → ℚ
  | .num q => q
  | _ => 0

/-- Modelled from the spec: the `ScaleDistribution` enum of `@grafana/schema`
(only its four members are used by this file; the enum definition itself is not
part of the excerpt). -/
inductive ScaleDistribution where
  | Linear : ScaleDistribution
  | Log : ScaleDistribution
  | Ordinal : ScaleDistribution
  | Symlog : ScaleDistribution
deriving DecidableEq

/-- `ScaleProps` (source lines 8-23).  `orientation`/`direction` are opaque
layout enums, kept as integers.  `range` is a caller-supplied fixed range when
present (`Scale.Range` tuple); when absent the builder installs `rangeFn`. -/
structure ScaleProps where
  scaleKey : String
  isTime : Bool := false
  min : JsNum := .undef
  max : JsNum := .undef
  softMin : JsNum := .undef
  softMax : JsNum := .undef
  range : Option (ℚ × ℚ) := none
  distribution : Option ScaleDistribution := none
  orientation : ℤ := 0
  direction : ℤ := 0
  log : Option ℚ := none
  linearThreshold : Option ℚ := none
  centeredZero : Bool := false
  decimals : JsNum := .undef
deriving DecidableEq

/-- The `'min' | 'max'` selector of `optMinMax`. -/
inductive MinMax where
  | min : MinMax
  | max : MinMax
deriving DecidableEq

/-- `optMinMax` (source lines 162-175): widening merge of two optional bounds.
`null` and `undefined` are both absent; a present value (including `0`) wins
over an absent one; two present values are combined with `<` / `>`. -/
def optMinMax (minmax : MinMax) (a b : JsNum) : JsNum :=
  let hasA := !a.isNullish
  let hasB := !b.isNullish
  if hasA then
    if !hasB then a
    else if minmax = MinMax.min then (if a.toQ < b.toQ then a else b)
    else (if a.toQ > b.toQ then a else b)
  else b

/-- `UPlotScaleBuilder.merge` (source lines 26-29): accumulate another series'
bounds into the builder's props. -/
def merge (cur incoming : ScaleProps) : ScaleProps :=
  { cur with
    min := optMinMax MinMax.min cur.min incoming.min
    max := optMinMax MinMax.max cur.max incoming.max }

/-- `softMin == null && hardMin != null` (source line 82). -/
def hardMinOnly (p : ScaleProps) : Bool := p.softMin.isNullish && !p.min.isNullish

/-- `softMax == null && hardMax != null` (source line 83). -/
def hardMaxOnly (p : ScaleProps) : Bool := p.softMax.isNullish && !p.max.isNullish

/-- `hardMinOnly && hardMaxOnly` (source line 84). -/
def hasFixedRange (p : ScaleProps) : Bool := hardMinOnly p && hardMaxOnly p

/-- One side of uPlot's `Range.Config`.  `hard = none` stands for the
`-Infinity` / `Infinity` default, i.e. no hard clamp on that side. -/
structure RangeSideCfg where
  pad : ℚ
  hard : Option ℚ
  soft : ℚ
  mode : ℕ
deriving DecidableEq

/-- uPlot `Range.Config` with a min side and a max side. -/
structure RangeCfg where
  cmin : RangeSideCfg
  cmax : RangeSideCfg
deriving DecidableEq

/-- The `rangeConfig` built in `getConfig` (source lines 63-80):
`pad: 0.1`, `hard: hardMin ?? -Infinity`, `soft: softMin || 0`,
`mode: softMin == null ? 3 : 1`, and symmetrically for the max side. -/
def rangeConfig (p : ScaleProps) : RangeCfg :=
  { cmin :=
      { pad := 1/10
        hard := p.min.toNum
        soft := (p.softMin.toNum).getD 0
        mode := if p.softMin.isNullish then 3 else 1 }
    cmax :=
      { pad := 1/10
        hard := p.max.toNum
        soft := (p.softMax.toNum).getD 0
        mode := if p.softMax.isNullish then 3 else 1 } }

/-- Modelled from the spec: `uPlot.rangeNum`, the charting library's padded
range computation, is not part of the repository excerpt.  Per spec section 4.3
it pads each side by `pad` (10 percent) of the span, the resolved bound never
crosses a soft bound lying on the far side of the data (the directional clamp,
used here for both soft modes 1 and 3 since the spec describes a single rule
and leaves the mode distinction to the library), and hard bounds are absolute
clamps.  The library's "nice number" rounding granularity is explicitly left
open by the spec (section 9) and is modelled as the identity. -/
def rangeNumModel (lo hi : ℚ) (cfg : RangeCfg) : ℚ × ℚ :=
  let span := hi - lo
  let padMin := lo - cfg.cmin.pad * span
  let padMax := hi + cfg.cmax.pad * span
  let softMin := if cfg.cmin.soft ≤ lo then max padMin cfg.cmin.soft else padMin
  let softMax := if hi ≤ cfg.cmax.soft then min padMax cfg.cmax.soft else padMax
  let minLim := match cfg.cmin.hard with
    | none => softMin
    | some h => max h softMin
  let maxLim := match cfg.cmax.hard with
    | none => softMax
    | some h => min h softMax
  (minLim, maxLim)

/-- Modelled from the spec: `uPlot.rangeLog` (not in the excerpt) returns a
full-decade range in the given base containing the extent, rounded outward to
powers of the base; behaviour on non-positive extents is caller-defined per
spec section 9 and is modelled as the identity there. -/
def rangeLogModel (lo hi base : ℚ) : ℚ × ℚ :=
  let b : ℕ := max 2 (Int.toNat ⌊base⌋)
  if 0 < lo ∧ lo ≤ hi then ((b : ℚ) ^ (Int.log b lo), (b : ℚ) ^ (Int.clog b hi))
  else (lo, hi)

/-- Modelled from the spec: `uPlot.rangeAsinh` (not in the excerpt) applies the
same outward decade rounding in asinh space, linear near zero.  The asinh map
itself is irrational, and (see `c10_asinh_unreachable`) the only call site is
unreachable, so its value is never relied on; magnitudes beyond `1` are rounded
outward to signed powers of the base and the linear region is kept as-is. -/
def rangeAsinhModel (lo hi base : ℚ) : ℚ × ℚ :=
  let b : ℕ := max 2 (Int.toNat ⌊base⌋)
  let dn : ℚ → ℚ := fun x =>
    if 1 ≤ x then (b : ℚ) ^ (Int.log b x)
    else if x ≤ -1 then -((b : ℚ) ^ (Int.clog b (-x)))
    else x
  let up : ℚ → ℚ := fun x =>
    if 1 ≤ x then (b : ℚ) ^ (Int.clog b x)
    else if x ≤ -1 then -((b : ℚ) ^ (Int.log b (-x)))
    else x
  (dn lo, up hi)

/-- Modelled from the spec: `incrRoundDn` of `@grafana/data` (not in the
excerpt) rounds down to a multiple of `incr`; at `incr = 1` this is the floor
used by the decimal snap (spec section 4.3 step 4). -/
def incrRoundDn (x incr : ℚ) : ℚ := (⌊x / incr⌋ : ℚ) * incr

/-- Modelled from the spec: `incrRoundUp` of `@grafana/data` (not in the
excerpt) rounds up to a multiple of `incr`; at `incr = 1` this is the ceiling
used by the decimal snap (spec section 4.3 step 4). -/
def incrRoundUp (x incr : ℚ) : ℚ := (⌈x / incr⌉ : ℚ) * incr

/-- Modelled from the spec: `isBooleanUnit` of `@grafana/data` is not in the
excerpt; per the spec boolean-valued scales are "a distinguished case detected
by key/unit", modelled here as the key being the boolean unit string. -/
def isBooleanUnit (unit : String) : Bool := unit == "bool"

/-- Steps 2-3 of the resolver (source lines 101-117): the centered-zero
transform followed by the distribution dispatch.  `distr` and `slog` are the
`distr` / `log` fields read from `u.scales[scaleKey]` at call time; the two
library range functions for the Log and SymLog branches are passed explicitly
since they are external to the excerpt. -/
def distrStepWith (logImpl asinhImpl : ℚ → ℚ → ℚ → ℚ × ℚ) (p : ScaleProps)
    (distr : ℕ) (slog : Option ℚ) (dataMin dataMax : Option ℚ) :
    Option ℚ × Option ℚ :=
  if distr = 1 ∨ distr = 2 ∨ distr = 4 then
    let absMin := abs (dataMin.getD 0)
    let absMax := abs (dataMax.getD 0)
    let m := max absMin absMax
    let dMin := if p.centeredZero then some (-m) else dataMin
    let dMax := if p.centeredZero then some m else dataMax
    let r := rangeNumModel
      (if hardMinOnly p then p.min.toQ else dMin.getD 0)
      (if hardMaxOnly p then p.max.toQ else dMax.getD 0)
      (rangeConfig p)
    (some r.1, some r.2)
  else if distr = 3 then
    let r := logImpl (dataMin.getD 0) (dataMax.getD 0) (slog.getD 10)
    (some r.1, some r.2)
  else if distr = 4 then
    let r := asinhImpl (dataMin.getD 0) (dataMax.getD 0) (slog.getD 10)
    (some r.1, some r.2)
  else (dataMin, dataMax)

/-- Step 4 of the resolver (source lines 119-122): when `decimals === 0`,
floor the minimum and ceil the maximum to whole numbers. -/
def snapStep (p : ScaleProps) (mm : Option ℚ × Option ℚ) : Option ℚ × Option ℚ :=
  if p.decimals = JsNum.num 0 then
    (some (incrRoundDn (mm.1.getD 0) 1), some (incrRoundUp (mm.2.getD 0) 1))
  else mm

/-- Step 5 of the resolver (source lines 124-131): a hard-only bound is forced
onto its side as a static value. -/
def overrideStep (p : ScaleProps) (mm : Option ℚ × Option ℚ) : Option ℚ × Option ℚ :=
  (if hardMinOnly p then some p.min.toQ else mm.1,
   if hardMaxOnly p then some p.max.toQ else mm.2)

/-- Step 6 of the resolver (source lines 133-137): the degeneracy guard,
substituting `[0, 100]` when `min >= max` (JavaScript `>=` coerces `null`
to `0`, hence the `getD 0`). -/
def guardStep (mm : Option ℚ × Option ℚ) : Option ℚ × Option ℚ :=
  if mm.2.getD 0 ≤ mm.1.getD 0 then (some 0, some 100) else mm

/-- The resolver `rangeFn` (source lines 86-140), parameterized by the two
external library range functions: the no-data short circuit (lines 96-99)
followed by the distribution, snap, hard-override and guard steps. -/
def rangeFnWith (logImpl asinhImpl : ℚ → ℚ → ℚ → ℚ × ℚ) (p : ScaleProps)
    (distr : ℕ) (slog : Option ℚ) (dataMin dataMax : Option ℚ) :
    Option ℚ × Option ℚ :=
  if hasFixedRange p = false ∧ dataMin = none ∧ dataMax = none then (dataMin, dataMax)
  else guardStep (overrideStep p (snapStep p (distrStepWith logImpl asinhImpl p distr slog dataMin dataMax)))

/-- Steps 2-3 with the modelled library functions plugged in. -/
def distrStep (p : ScaleProps) (distr : ℕ) (slog : Option ℚ)
    (dataMin dataMax : Option ℚ) : Option ℚ × Option ℚ :=
  distrStepWith rangeLogModel rangeAsinhModel p distr slog dataMin dataMax

/-- The resolver with the modelled library functions plugged in. -/
def rangeFn (p : ScaleProps) (distr : ℕ) (slog : Option ℚ)
    (dataMin dataMax : Option ℚ) : Option ℚ × Option ℚ :=
  rangeFnWith rangeLogModel rangeAsinhModel p distr slog dataMin dataMax

/-- The descriptor's `range` entry: either a fixed pair or the installed
resolver function (`range ?? rangeFn`, source line 153). -/
inductive RangeField where
  | fixed : ℚ × ℚ → RangeField
  | resolver : RangeField
deriving DecidableEq

/-- Discriminator mapping of `getConfig` (source lines 50-57):
`Symlog` to 4, `Log` to 3, `Ordinal` to 2, anything else to 1. -/
def distrNumOf (d : Option ScaleDistribution) : ℕ :=
  match d with
  | some ScaleDistribution.Symlog => 4
  | some ScaleDistribution.Log => 3
  | some ScaleDistribution.Ordinal => 2
  | _ => 1

/-- The scale descriptor produced by `getConfig` (source lines 149-158).
`distr`/`log`/`asinh` are `none` exactly when the corresponding key is absent
or `undefined` in the emitted object. -/
structure ScaleOut where
  time : Bool
  auto : Bool
  range : RangeField
  dir : ℤ
  ori : ℤ
  distr : Option ℕ
  log : Option ℚ
  asinh : Option ℚ
deriving DecidableEq

/-- `getConfig` (source lines 31-159): the distribution block (empty for time
scales), the `auto` flag, the boolean-unit override forcing `auto = false` and
`range = [0, 1]`, and `range ?? rangeFn`. -/
def getConfig (p : ScaleProps) : ScaleOut :=
  { time := p.isTime
    auto := if isBooleanUnit p.scaleKey then false else (!p.isTime && !hasFixedRange p)
    range :=
      if isBooleanUnit p.scaleKey then RangeField.fixed (0, 1)
      else
        match p.range with
        | some r => RangeField.fixed r
        | none => RangeField.resolver
    dir := p.direction
    ori := p.orientation
    distr := if p.isTime then none else some (distrNumOf p.distribution)
    log :=
      if p.isTime then none
      else if p.distribution = some ScaleDistribution.Log ∨ p.distribution = some ScaleDistribution.Symlog then
        some (p.log.getD 2)
      else none
    asinh :=
      if p.isTime then none
      else if p.distribution = some ScaleDistribution.Symlog then some (p.linearThreshold.getD 1)
      else none }

/-- The variant of the resolver with the `distr === 4` / `rangeAsinh` else-if
branch removed (stated from the spec reading of claim C10, to be compared with
`rangeFnWith`). -/
def distrStepNoAsinhWith (logImpl : ℚ → ℚ → ℚ → ℚ × ℚ) (p : ScaleProps)
    (distr : ℕ) (slog : Option ℚ) (dataMin dataMax : Option ℚ) :
    Option ℚ × Option ℚ :=
  if distr = 1 ∨ distr = 2 ∨ distr = 4 then
    let absMin := abs (dataMin.getD 0)
    let absMax := abs (dataMax.getD 0)
    let m := max absMin absMax
    let dMin := if p.centeredZero then some (-m) else dataMin
    let dMax := if p.centeredZero then some m else dataMax
    let r := rangeNumModel
      (if hardMinOnly p then p.min.toQ else dMin.getD 0)
      (if hardMaxOnly p then p.max.toQ else dMax.getD 0)
      (rangeConfig p)
    (some r.1, some r.2)
  else if distr = 3 then
    let r := logImpl (dataMin.getD 0) (dataMax.getD 0) (slog.getD 10)
    (some r.1, some r.2)
  else (dataMin, dataMax)

/-- The resolver built from the asinh-free dispatch. -/
def rangeFnNoAsinhWith (logImpl : ℚ → ℚ → ℚ → ℚ × ℚ) (p : ScaleProps)
    (distr : ℕ) (slog : Option ℚ) (dataMin dataMax : Option ℚ) :
    Option ℚ × Option ℚ :=
  if hasFixedRange p = false ∧ dataMin = none ∧ dataMax = none then (dataMin, dataMax)
  else guardStep (overrideStep p (snapStep p (distrStepNoAsinhWith logImpl p distr slog dataMin dataMax)))

/-- Concrete props: both bounds hard-only and equal (a config with
`hardMin = hardMax = 100`, soft bounds absent). -/
def c1props : ScaleProps := { scaleKey := "y", min := JsNum.num 100, max := JsNum.num 100 }

/-- Concrete props: both bounds hard-only, `hardMin = 5 < 7 = hardMax`. -/
def w1props : ScaleProps := { scaleKey := "y", min := JsNum.num 5, max := JsNum.num 7 }

/-- Concrete props: no bounds at all. -/
def w2props : ScaleProps := { scaleKey := "y" }

/-- Concrete props: hard-only minimum `5` together with `centeredZero`. -/
def c4props : ScaleProps := { scaleKey := "y", min := JsNum.num 5, centeredZero := true }

/-- Concrete props: `centeredZero` with no bounds. -/
def c4wprops : ScaleProps := { scaleKey := "y", centeredZero := true }

/-- Concrete props: non-integer hard-only minimum `1/2` with `decimals = 0`. -/
def c5props : ScaleProps := { scaleKey := "y", min := JsNum.num (1/2), decimals := JsNum.num 0 }

/-- Concrete props: a boolean-unit scale key with a caller range and a hard bound. -/
def c7props : ScaleProps := { scaleKey := "bool", range := some (5, 6), min := JsNum.num 3 }

/-- Concrete props: a time scale with no caller-supplied range. -/
def c9props : ScaleProps := { scaleKey := "time", isTime := true }

lemma rangeFn_def (p : ScaleProps) (distr : ℕ) (slog : Option ℚ) (dmin dmax : Option ℚ) :
    rangeFn p distr slog dmin dmax =
      if hasFixedRange p = false ∧ dmin = none ∧ dmax = none then (dmin, dmax)
      else guardStep (overrideStep p (snapStep p (distrStep p distr slog dmin dmax))) := rfl

lemma guardStep_cases (mm : Option ℚ × Option ℚ) :
    guardStep mm = (some 0, some 100) ∨ guardStep mm = mm := by
  unfold guardStep
  split_ifs
  · exact Or.inl rfl
  · exact Or.inr rfl

lemma overrideStep_fst (p : ScaleProps) (mm : Option ℚ × Option ℚ) (h : hardMinOnly p = true) :
    (overrideStep p mm).1 = some p.min.toQ := by
  simp [overrideStep, h]

lemma overrideStep_snd (p : ScaleProps) (mm : Option ℚ × Option ℚ) (h : hardMaxOnly p = true) :
    (overrideStep p mm).2 = some p.max.toQ := by
  simp [overrideStep, h]

lemma distrStep_some (p : ScaleProps) (distr : ℕ) (slog : Option ℚ) (dmin dmax : Option ℚ)
    (h : distr = 1 ∨ distr = 2 ∨ distr = 3 ∨ distr = 4) :
    ∃ a b : ℚ, distrStep p distr slog dmin dmax = (some a, some b) := by
  unfold distrStep distrStepWith
  by_cases h124 : distr = 1 ∨ distr = 2 ∨ distr = 4
  · rw [if_pos h124]
    exact ⟨_, _, rfl⟩
  · have h3 : distr = 3 := by
      rcases h with h | h | h | h
      · exact absurd (Or.inl h) h124
      · exact absurd (Or.inr (Or.inl h)) h124
      · exact h
      · exact absurd (Or.inr (Or.inr h)) h124
    rw [if_neg h124, if_pos h3]
    exact ⟨_, _, rfl⟩

lemma snapStep_some (p : ScaleProps) (a b : ℚ) :
    ∃ a' b' : ℚ, snapStep p (some a, some b) = (some a', some b') := by
  unfold snapStep
  split_ifs
  · exact ⟨_, _, rfl⟩
  · exact ⟨a, b, rfl⟩

lemma overrideStep_some (p : ScaleProps) (a b : ℚ) :
    ∃ a' b' : ℚ, overrideStep p (some a, some b) = (some a', some b') := by
  unfold overrideStep
  split_ifs <;> exact ⟨_, _, rfl⟩

lemma JsNum.toNum_none {a : JsNum} (h : a.isNullish = true) : a.toNum = none := by
  cases a <;> simp_all [JsNum.isNullish, JsNum.toNum]

lemma ite_lt_min (x y : ℚ) : (if x < y then JsNum.num x else JsNum.num y) = JsNum.num (min x y) := by
  split_ifs with h
  · rw [min_eq_left h.le]
  · rw [min_eq_right (le_of_not_lt h)]

lemma ite_gt_max (x y : ℚ) : (if x > y then JsNum.num x else JsNum.num y) = JsNum.num (max x y) := by
  split_ifs with h
  · rw [max_eq_left h.le]
  · rw [max_eq_right (le_of_not_lt h)]

/-- C2: for every scale that is not configured with hard-only bounds on both
ends, the resolver returns `[null, null]` immediately when both data extents
are `null`, whatever the distribution discriminator, scale log or decimals. -/
theorem c2_short_circuit (p : ScaleProps) (distr : ℕ) (slog : Option ℚ)
    (h : hasFixedRange p = false) :
    rangeFn p distr slog none none = (none, none) := by
  rw [rangeFn_def, if_pos ⟨h, rfl, rfl⟩]

/-- C2 witness: a scale with no bounds at all short-circuits on null extents. -/
theorem c2_short_circuit_witness :
    hasFixedRange w2props = false ∧ rangeFn w2props 1 none none none = (none, none) :=
  ⟨rfl, c2_short_circuit w2props 1 none rfl⟩

/-- C8: the resolver and the descriptor builder are deterministic: two calls
with identical inputs (and no merge in between, which in this pure embedding
means the same `ScaleProps`) return the identical result. -/
theorem c8_deterministic (p : ScaleProps) (distr : ℕ) (slog : Option ℚ)
    (dmin dmax : Option ℚ) :
    rangeFn p distr slog dmin dmax = rangeFn p distr slog dmin dmax ∧
    getConfig p = getConfig p :=
  ⟨rfl, rfl⟩

/-- C6: `optMinMax` (and `UPlotScaleBuilder.merge`, which applies it to both
sides) takes the smaller of two present values for `min` and the larger for
`max`, takes the present one when only one is present (an explicit `0` counts
as present), and yields an absent value when neither is present; `null` and
`undefined` are both absent. -/
theorem c6_optMinMax_merge (a b : JsNum) (cur incoming : ScaleProps) :
    (optMinMax MinMax.min a b =
      (match a.toNum, b.toNum with
       | some x, some y => JsNum.num (min x y)
       | some _, none => a
       | none, some _ => b
       | none, none => b)) ∧
    (optMinMax MinMax.max a b =
      (match a.toNum, b.toNum with
       | some x, some y => JsNum.num (max x y)
       | some _, none => a
       | none, some _ => b
       | none, none => b)) ∧
    (merge cur incoming).min = optMinMax MinMax.min cur.min incoming.min ∧
    (merge cur incoming).max = optMinMax MinMax.max cur.max incoming.max := by
  refine ⟨?_, ?_, rfl, rfl⟩
  · cases a <;> cases b <;>
      simp [optMinMax, JsNum.toNum, JsNum.isNullish, JsNum.toQ, ite_lt_min]
  · cases a <;> cases b <;>
      simp [optMinMax, JsNum.toNum, JsNum.isNullish, JsNum.toQ, ite_gt_max]

/-- C7: whenever the scale key is recognized as boolean-valued, the descriptor
has `auto = false` and the fixed range `[0, 1]`, regardless of any other
configuration (bounds, caller range, data play no role). -/
theorem c7_boolean_override (p : ScaleProps) (h : isBooleanUnit p.scaleKey = true) :
    (getConfig p).auto = false ∧ (getConfig p).range = RangeField.fixed (0, 1) := by
  unfold getConfig
  simp [h]

/-- C7 witness: a `bool` scale with a caller range `[5, 6]` and a hard bound
still gets `auto = false` and range `[0, 1]`. -/
theorem c7_boolean_override_witness :
    isBooleanUnit c7props.scaleKey = true ∧
    ((getConfig c7props).auto = false ∧ (getConfig c7props).range = RangeField.fixed (0, 1)) :=
  ⟨rfl, c7_boolean_override c7props rfl⟩

/-- C9 counterexample: a time scale with no caller-supplied range still gets
the resolver function installed as its `range`, contrary to the claim that a
time scale's range never comes from `rangeFn`. -/
theorem c9_counterexample :
    (getConfig c9props).time = true ∧ (getConfig c9props).range = RangeField.resolver := by
  constructor
  · with_unfolding_all rfl
  · with_unfolding_all rfl

/-- C9 (amended): for non-time scales the discriminator is 1 for Linear, 2 for
Ordinal, 3 for Log, 4 for SymLog, `log` is the configured base defaulting to 2
for Log/SymLog and absent otherwise, `asinh` is the configured linear
threshold defaulting to 1 for SymLog only; for time scales none of the three
fields is set, but the `range` entry is still the resolver function when no
caller range is supplied (unless the boolean override applies). -/
theorem c9_discriminators (p : ScaleProps) :
    (getConfig { p with isTime := false, distribution := some ScaleDistribution.Linear }).distr = some 1 ∧
    (getConfig { p with isTime := false, distribution := some ScaleDistribution.Ordinal }).distr = some 2 ∧
    (getConfig { p with isTime := false, distribution := some ScaleDistribution.Log }).distr = some 3 ∧
    (getConfig { p with isTime := false, distribution := some ScaleDistribution.Symlog }).distr = some 4 ∧
    (getConfig { p with isTime := false, distribution := some ScaleDistribution.Linear }).log = none ∧
    (getConfig { p with isTime := false, distribution := some ScaleDistribution.Ordinal }).log = none ∧
    (getConfig { p with isTime := false, distribution := some ScaleDistribution.Log }).log = some (p.log.getD 2) ∧
    (getConfig { p with isTime := false, distribution := some ScaleDistribution.Symlog }).log = some (p.log.getD 2) ∧
    (getConfig { p with isTime := false, distribution := some ScaleDistribution.Linear }).asinh = none ∧
    (getConfig { p with isTime := false, distribution := some ScaleDistribution.Ordinal }).asinh = none ∧
    (getConfig { p with isTime := false, distribution := some ScaleDistribution.Log }).asinh = none ∧
    (getConfig { p with isTime := false, distribution := some ScaleDistribution.Symlog }).asinh =
      some (p.linearThreshold.getD 1) ∧
    (getConfig { p with isTime := true }).distr = none ∧
    (getConfig { p with isTime := true }).log = none ∧
    (getConfig { p with isTime := true }).asinh = none ∧
    (getConfig { p with isTime := true, range := none }).range =
      (if isBooleanUnit p.scaleKey then RangeField.fixed (0, 1) else RangeField.resolver) := by
  refine ⟨rfl, rfl, rfl, rfl, ?_, ?_, ?_, ?_, ?_, ?_, ?_, ?_, rfl, rfl, rfl, ?_⟩ <;>
    simp [getConfig, distrNumOf]

lemma distrStepWith_noAsinh (logImpl asinhImpl : ℚ → ℚ → ℚ → ℚ × ℚ) (p : ScaleProps)
    (distr : ℕ) (slog : Option ℚ) (dmin dmax : Option ℚ) :
    distrStepWith logImpl asinhImpl p distr slog dmin dmax =
      distrStepNoAsinhWith logImpl p distr slog dmin dmax := by
  unfold distrStepWith distrStepNoAsinhWith
  by_cases h124 : distr = 1 ∨ distr = 2 ∨ distr = 4
  · rw [if_pos h124, if_pos h124]
  · rw [if_neg h124, if_neg h124]
    by_cases h3 : distr = 3
    · rw [if_pos h3, if_pos h3]
    · rw [if_neg h3, if_neg h3, if_neg fun h4 => h124 (Or.inr (Or.inr h4))]

/-- C10: whatever the two external library range functions are, the resolver
equals the resolver with the `distr === 4` / `rangeAsinh` else-if branch
removed (that branch is unreachable because discriminator 4 is already caught
by the Linear/Ordinal/SymLog branch); in particular at discriminator 4 the
result does not depend on either library function. -/
theorem c10_asinh_unreachable (logImpl asinhImpl logImpl2 asinhImpl2 : ℚ → ℚ → ℚ → ℚ × ℚ)
    (p : ScaleProps) (distr : ℕ) (slog : Option ℚ) (dmin dmax : Option ℚ) :
    rangeFnWith logImpl asinhImpl p distr slog dmin dmax =
      rangeFnNoAsinhWith logImpl p distr slog dmin dmax ∧
    rangeFnWith logImpl asinhImpl p 4 slog dmin dmax =
      rangeFnWith logImpl2 asinhImpl2 p 4 slog dmin dmax := by
  constructor
  · unfold rangeFnWith rangeFnNoAsinhWith
    rw [distrStepWith_noAsinh]
  · unfold rangeFnWith
    rw [distrStepWith_noAsinh, distrStepWith_noAsinh]
    unfold distrStepNoAsinhWith
    rw [if_pos (Or.inr (Or.inr rfl) : (4:ℕ) = 1 ∨ (4:ℕ) = 2 ∨ (4:ℕ) = 4),
      if_pos (Or.inr (Or.inr rfl) : (4:ℕ) = 1 ∨ (4:ℕ) = 2 ∨ (4:ℕ) = 4)]

/-- C1 counterexample: with `hardMin = hardMax = 100` (both hard-only, soft
bounds absent) and data extent `[0, 50]`, the degeneracy guard fires after the
hard override and the resolver returns `[0, 100]`, whose minimum is not
`hardMin`. -/
theorem c1_counterexample :
    hardMinOnly c1props = true ∧
    rangeFn c1props 1 none (some 0) (some 50) = (some 0, some 100) ∧
    (rangeFn c1props 1 none (some 0) (some 50)).1 ≠ some c1props.min.toQ :=
  ⟨rfl, by with_unfolding_all rfl, of_decide_eq_true (by with_unfolding_all rfl)⟩

/-- C1 (amended): when `hardMin` is present and `softMin` absent, the resolved
minimum equals `hardMin` exactly, except that the no-data short circuit may
return `[null, null]` and the degeneracy guard may replace the pair with
`[0, 100]`; symmetrically for a hard-only `hardMax`. -/
theorem c1_hard_override (p : ScaleProps) (distr : ℕ) (slog : Option ℚ)
    (dmin dmax : Option ℚ) :
    (hardMinOnly p = true →
      rangeFn p distr slog dmin dmax = (none, none) ∨
      rangeFn p distr slog dmin dmax = (some 0, some 100) ∨
      (rangeFn p distr slog dmin dmax).1 = some p.min.toQ) ∧
    (hardMaxOnly p = true →
      rangeFn p distr slog dmin dmax = (none, none) ∨
      rangeFn p distr slog dmin dmax = (some 0, some 100) ∨
      (rangeFn p distr slog dmin dmax).2 = some p.max.toQ) := by
  constructor
  · intro h
    rw [rangeFn_def]
    split_ifs with hsc
    · exact Or.inl (by rw [hsc.2.1, hsc.2.2])
    · rcases guardStep_cases (overrideStep p (snapStep p (distrStep p distr slog dmin dmax))) with hg | hg
      · exact Or.inr (Or.inl hg)
      · exact Or.inr (Or.inr (by rw [hg, overrideStep_fst _ _ h]))
  · intro h
    rw [rangeFn_def]
    split_ifs with hsc
    · exact Or.inl (by rw [hsc.2.1, hsc.2.2])
    · rcases guardStep_cases (overrideStep p (snapStep p (distrStep p distr slog dmin dmax))) with hg | hg
      · exact Or.inr (Or.inl hg)
      · exact Or.inr (Or.inr (by rw [hg, overrideStep_snd _ _ h]))

/-- C1 witness: hard-only bounds `5` and `7` with data `[0, 6]`. -/
theorem c1_hard_override_witness :
    hardMinOnly w1props = true ∧ hardMaxOnly w1props = true ∧
    (rangeFn w1props 1 none (some 0) (some 6) = (none, none) ∨
     rangeFn w1props 1 none (some 0) (some 6) = (some 0, some 100) ∨
     (rangeFn w1props 1 none (some 0) (some 6)).1 = some w1props.min.toQ) ∧
    (rangeFn w1props 1 none (some 0) (some 6) = (none, none) ∨
     rangeFn w1props 1 none (some 0) (some 6) = (some 0, some 100) ∨
     (rangeFn w1props 1 none (some 0) (some 6)).2 = some w1props.max.toQ) :=
  ⟨rfl, rfl, (c1_hard_override w1props 1 none (some 0) (some 6)).1 rfl,
    (c1_hard_override w1props 1 none (some 0) (some 6)).2 rfl⟩

/-- C3: if after the distribution, snap and hard-override steps the computed
minimum is at least the computed maximum, the resolver returns exactly
`[0, 100]`; and (the resolver being a total function) for every actual
discriminator (1, 2, 3 or 4) the result is either `[null, null]` or a pair of
numbers with minimum strictly below maximum. -/
theorem c3_guard_and_validity (p : ScaleProps) (distr : ℕ) (slog : Option ℚ)
    (dmin dmax : Option ℚ) :
    (¬(hasFixedRange p = false ∧ dmin = none ∧ dmax = none) →
      (overrideStep p (snapStep p (distrStep p distr slog dmin dmax))).2.getD 0 ≤
        (overrideStep p (snapStep p (distrStep p distr slog dmin dmax))).1.getD 0 →
      rangeFn p distr slog dmin dmax = (some 0, some 100)) ∧
    ((distr = 1 ∨ distr = 2 ∨ distr = 3 ∨ distr = 4) →
      rangeFn p distr slog dmin dmax = (none, none) ∨
      ∃ a b : ℚ, rangeFn p distr slog dmin dmax = (some a, some b) ∧ a < b) := by
  constructor
  · intro hsc hle
    rw [rangeFn_def, if_neg hsc]
    unfold guardStep
    rw [if_pos hle]
  · intro hd
    rw [rangeFn_def]
    split_ifs with hsc
    · exact Or.inl (by rw [hsc.2.1, hsc.2.2])
    · obtain ⟨a, b, hab⟩ := distrStep_some p distr slog dmin dmax hd
      rw [hab]
      obtain ⟨a', b', hab'⟩ := snapStep_some p a b
      rw [hab']
      obtain ⟨a'', b'', hab''⟩ := overrideStep_some p a' b'
      rw [hab'']
      unfold guardStep
      simp only [Option.getD_some]
      split_ifs with hg
      · exact Or.inr ⟨0, 100, rfl, by norm_num⟩
      · exact Or.inr ⟨a'', b'', rfl, not_le.mp hg⟩

/-- C3 witness: the guard fires on the degenerate hard-fixed config
`[100, 100]` and the result `[0, 100]` is a valid strictly ordered pair. -/
theorem c3_guard_witness :
    rangeFn c1props 1 none (some 0) (some 50) = (some 0, some 100) ∧
    (rangeFn c1props 1 none (some 0) (some 50) = (none, none) ∨
     ∃ a b : ℚ, rangeFn c1props 1 none (some 0) (some 50) = (some a, some b) ∧ a < b) :=
  ⟨(c3_guard_and_validity c1props 1 none (some 0) (some 50)).1
      (of_decide_eq_true (by with_unfolding_all rfl))
      (of_decide_eq_true (by with_unfolding_all rfl)),
    (c3_guard_and_validity c1props 1 none (some 0) (some 50)).2 (Or.inl rfl)⟩

/-- C5 counterexample: with the non-integer hard-only minimum `1/2` and
`decimals = 0`, the resolver's minimum is `1/2`: not an integer (its floor
differs from it), and not the floor of the pre-snap minimum either, because
the hard override is applied after the decimal snap. -/
theorem c5_counterexample :
    c5props.decimals = JsNum.num 0 ∧
    (rangeFn c5props 1 none (some 0) (some 10)).1 = some (1/2 : ℚ) ∧
    (⌊(1/2 : ℚ)⌋ : ℚ) ≠ (1/2 : ℚ) ∧
    (rangeFn c5props 1 none (some 0) (some 10)).1 ≠
      some (incrRoundDn ((distrStep c5props 1 none (some 0) (some 10)).1.getD 0) 1) :=
  ⟨rfl, by with_unfolding_all rfl, of_decide_eq_true (by with_unfolding_all rfl),
    of_decide_eq_true (by with_unfolding_all rfl)⟩

/-- C5 (amended): with `decimals = 0` and no short circuit, the result is
either the guard fallback `[0, 100]`, or per side the floor (minimum) / the
ceiling (maximum) of the pre-snap value, except that a hard-only bound
replaces its side with the raw hard value, which need not be an integer. -/
theorem c5_decimal_snap (p : ScaleProps) (distr : ℕ) (slog : Option ℚ)
    (dmin dmax : Option ℚ) (h0 : p.decimals = JsNum.num 0)
    (h1 : ¬(hasFixedRange p = false ∧ dmin = none ∧ dmax = none)) :
    rangeFn p distr slog dmin dmax = (some 0, some 100) ∨
    rangeFn p distr slog dmin dmax =
      (if hardMinOnly p then some p.min.toQ
       else some (incrRoundDn ((distrStep p distr slog dmin dmax).1.getD 0) 1),
       if hardMaxOnly p then some p.max.toQ
       else some (incrRoundUp ((distrStep p distr slog dmin dmax).2.getD 0) 1)) := by
  rw [rangeFn_def, if_neg h1]
  rcases guardStep_cases (overrideStep p (snapStep p (distrStep p distr slog dmin dmax))) with hg | hg
  · exact Or.inl hg
  · rw [hg]
    unfold overrideStep snapStep
    rw [if_pos h0]
    exact Or.inr rfl

/-- C5 witness: the amended statement at the `1/2` hard-only-minimum config. -/
theorem c5_decimal_snap_witness :
    rangeFn c5props 1 none (some 0) (some 10) = (some 0, some 100) ∨
    rangeFn c5props 1 none (some 0) (some 10) =
      (if hardMinOnly c5props then some c5props.min.toQ
       else some (incrRoundDn ((distrStep c5props 1 none (some 0) (some 10)).1.getD 0) 1),
       if hardMaxOnly c5props then some c5props.max.toQ
       else some (incrRoundUp ((distrStep c5props 1 none (some 0) (some 10)).2.getD 0) 1)) :=
  c5_decimal_snap c5props 1 none (some 0) (some 10) rfl
    (of_decide_eq_true (by with_unfolding_all rfl))

/-- C4 counterexample: with `centeredZero` and a hard-only minimum `5`, data
`[-3, 7]`, the intermediate range before the hard-override and guard steps is
`[5, 36/5]` (the hard value is authoritative inside the padded range
computation), which is not symmetric around zero. -/
theorem c4_counterexample :
    c4props.centeredZero = true ∧
    snapStep c4props (distrStep c4props 1 none (some (-3)) (some 7)) = (some 5, some (36/5)) ∧
    (snapStep c4props (distrStep c4props 1 none (some (-3)) (some 7))).1.getD 0 ≠
      -((snapStep c4props (distrStep c4props 1 none (some (-3)) (some 7))).2.getD 0) :=
  ⟨rfl, by with_unfolding_all rfl, of_decide_eq_true (by with_unfolding_all rfl)⟩

/-- C4 (amended): for a non-Log discriminator (1, 2 or 4) with `centeredZero`,
the extent is first replaced by `[-m, m]` with `m = max |extent.min|
|extent.max|` (so the distribution step gives the same result as on the
already-centered extent), and when no hard or soft bound is configured the
intermediate range before the hard-override and guard steps satisfies
`min = -max`. -/
theorem c4_centered_zero (p : ScaleProps) (distr : ℕ) (slog : Option ℚ)
    (dmin dmax : Option ℚ) (hd : distr = 1 ∨ distr = 2 ∨ distr = 4)
    (hc : p.centeredZero = true) :
    distrStep p distr slog dmin dmax =
      distrStep p distr slog
        (some (-(max (abs (dmin.getD 0)) (abs (dmax.getD 0)))))
        (some (max (abs (dmin.getD 0)) (abs (dmax.getD 0)))) ∧
    (p.min.isNullish = true → p.max.isNullish = true →
     p.softMin.isNullish = true → p.softMax.isNullish = true →
     (snapStep p (distrStep p distr slog dmin dmax)).1.getD 0 =
       -((snapStep p (distrStep p distr slog dmin dmax)).2.getD 0)) := by
  have hM : (0:ℚ) ≤ max (abs (dmin.getD 0)) (abs (dmax.getD 0)) :=
    le_trans (abs_nonneg _) (le_max_left _ _)
  constructor
  · unfold distrStep distrStepWith
    rw [if_pos hd, if_pos hd]
    simp [hc, abs_of_nonneg hM]
  · intro h1 h2 h3 h4
    have hmo : hardMinOnly p = false := by simp [hardMinOnly, h1]
    have hxo : hardMaxOnly p = false := by simp [hardMaxOnly, h2]
    have hpair : distrStep p distr slog dmin dmax =
        (some (rangeNumModel (-(max (abs (dmin.getD 0)) (abs (dmax.getD 0))))
                (max (abs (dmin.getD 0)) (abs (dmax.getD 0))) (rangeConfig p)).1,
         some (rangeNumModel (-(max (abs (dmin.getD 0)) (abs (dmax.getD 0))))
                (max (abs (dmin.getD 0)) (abs (dmax.getD 0))) (rangeConfig p)).2) := by
      unfold distrStep distrStepWith
      rw [if_pos hd]
      simp [hc, hmo, hxo]
    set M := max (abs (dmin.getD 0)) (abs (dmax.getD 0)) with hMdef
    have hrn : rangeNumModel (-M) M (rangeConfig p) =
        (-M - 1/10 * (M - -M), M + 1/10 * (M - -M)) := by
      unfold rangeNumModel rangeConfig
      simp only [JsNum.toNum_none h1, JsNum.toNum_none h2, JsNum.toNum_none h3,
        JsNum.toNum_none h4, Option.getD_none]
      rcases eq_or_lt_of_le hM with heq | hlt
      · rw [← heq]
        norm_num
      · rw [if_neg (not_le.mpr (by linarith : -M < 0)), if_neg (not_le.mpr hlt)]
    rw [hpair, hrn]
    unfold snapStep
    split_ifs with hdec
    · simp only [Option.getD_some]
      unfold incrRoundDn incrRoundUp
      rw [div_one, div_one, mul_one, mul_one]
      have hsym : -M - 1/10 * (M - -M) = -(M + 1/10 * (M - -M)) := by ring
      rw [hsym, Int.floor_neg]
      push_cast
      ring
    · simp only [Option.getD_some]
      ring

/-- C4 witness: `centeredZero` with no bounds at all, discriminator 1, data
`[-3, 7]`: the distribution step equals the one on the centered extent
`[-7, 7]` and the intermediate range is symmetric around zero. -/
theorem c4_centered_zero_witness :
    (distrStep c4wprops 1 none (some (-3)) (some 7) =
      distrStep c4wprops 1 none
        (some (-(max (abs ((some (-3) : Option ℚ).getD 0)) (abs ((some 7 : Option ℚ).getD 0)))))
        (some (max (abs ((some (-3) : Option ℚ).getD 0)) (abs ((some 7 : Option ℚ).getD 0))))) ∧
    ((snapStep c4wprops (distrStep c4wprops 1 none (some (-3)) (some 7))).1.getD 0 =
      -((snapStep c4wprops (distrStep c4wprops 1 none (some (-3)) (some 7))).2.getD 0)) := by
  have h := c4_centered_zero c4wprops 1 none (some (-3)) (some 7) (Or.inl rfl) rfl
  exact ⟨h.1, h.2 rfl rfl rfl rfl⟩
